import Mathlib

/- Verification of the rhv-upload nbdkit plugin (v2v/rhv-upload-plugin.py).

   The plugin is shallowly embedded as pure Lean functions.  Each data-plane
   operation (pread, pwrite, zero, emulate_zero, trim, flush) is modelled as a
   function of the handle state and the HTTP response the server returns for
   the request the operation issues; the function returns the updated handle,
   the list of externally visible actions (network requests, transfer-service
   calls, log writes, file writes) the Python code performs, and either a
   normal result or the information carried by the RuntimeError the code
   raises.  close is modelled over an environment supplying the outcomes of
   the external calls it makes (the flush response, the result of
   transfer_service.finalize(), the successive results of disk_service.get()
   polling, and the result of disk_service.remove()). -/

namespace RhvUpload

/-- Status of the remote disk object (types.DiskStatus); only OK and LOCKED
are examined by the plugin, any other status (e.g. ILLEGAL) just keeps the
close polling loop going. -/
inductive DiskStatus where
  | ok
  | locked
  | illegal
  deriving DecidableEq

/-- Result of one disk_service.get() call during close's post-finalize
polling: either a disk object with some status, or the sdk.NotFoundError
exception. -/
inductive PollResult where
  | found (s : DiskStatus)
  | notFound
  deriving DecidableEq

/-- Outcome of close's post-finalize polling loop (lines 531-546). -/
inductive WaitRes where
  | finished
  | notFound
  | timedOut
  deriving DecidableEq

/-- Externally visible actions performed by the plugin: data-plane HTTP
requests, transfer-service calls, debug logging, and the artifact write. -/
inductive Action where
  /-- GET with a Range header for bytes offset..offset+count-1 (pread);
  auth records whether an Authorization header was added. -/
  | getRange (offset count : Nat) (auth : Bool)
  /-- PUT with Content-Range bytes offset..offset+count-1 and Content-Length
  count; flushN is true for pwrite's path?flush=n variant, false for the
  plain PUT used by emulate_zero. -/
  | put (offset count : Nat) (flushN : Bool) (auth : Bool)
  /-- one http.send call transferring len bytes of the PUT body. -/
  | sendChunk (len : Nat)
  /-- PATCH with JSON body op=zero, offset, size, flush=false. -/
  | patchZero (offset size : Nat)
  /-- PATCH with JSON body op=trim, offset, size, flush=false. -/
  | patchTrim (offset size : Nat)
  /-- PATCH with JSON body op=flush. -/
  | patchFlush
  /-- transfer_service.pause() issued by request_failed. -/
  | pause
  /-- a line written to the verbose/debug log channel. -/
  | debugLog (s : String)
  /-- the full response body written to the verbose/debug log channel. -/
  | debugBody (b : List Nat)
  /-- http.close() in close's normal path. -/
  | httpClose
  /-- transfer_service.finalize(). -/
  | finalizeReq
  /-- one disk_service.get() poll in close's finalize wait loop. -/
  | pollDisk
  /-- the disk-id artifact file written with exactly this content. -/
  | writeArtifact (content : String)
  /-- disk_service.remove() attempted by delete_disk_on_failure. -/
  | deleteDisk
  /-- connection.close() on the management connection. -/
  | connClose
  deriving DecidableEq

/-- The plugin handle dict built at the end of open (lines 285-299), reduced
to the fields the data-plane and close logic read or write.  diskId stands
for h.disk.id (the created disk's identifier). -/
structure Handle where
  can_flush : Bool
  can_trim : Bool
  can_zero : Bool
  failed : Bool
  highestwrite : Nat
  needs_auth : Bool
  diskId : String
  deriving DecidableEq

/-- An HTTP response as seen by http.getresponse(): status, reason phrase,
and body bytes.  bodyExc models the EnvironmentError that r.read() may raise
inside request_failed (lines 322-325). -/
structure Response where
  status : Nat
  reason : String
  body : List Nat
  bodyExc : Option String
  deriving DecidableEq

/-- The components of the RuntimeError raised by request_failed (line 334):
"%s: %d %s: %r" combining the context message, HTTP status, reason phrase,
and the first 200 bytes of the response body. -/
structure FailInfo where
  context : String
  status : Nat
  reason : String
  bodyShort : List Nat
  deriving DecidableEq

/-- Result of request_failed: the mutated handle, the actions performed
(pause plus debug logging), and the data of the raised RuntimeError. -/
structure FailResult where
  h : Handle
  acts : List Action
  info : FailInfo

/-- Result of a data-plane operation: updated handle, actions performed, and
either the normal return value or the raised RuntimeError data. -/
structure OpResult (α : Type) where
  h : Handle
  acts : List Action
  res : Except FailInfo α

/-- A Python exception escaping close: a plain RuntimeError, the
RuntimeError raised by request_failed, or an exception from an SDK call
(e.g. disk_service.remove() or transfer_service.finalize()). -/
inductive PyErr where
  | runtimeError (msg : String)
  | requestError (info : FailInfo)
  | sdkError (msg : String)
  deriving DecidableEq

/-- The OPTIONS capability probe response as consumed by open (lines
245-257): HTTP status, reason, and for a 200 response the parsed JSON
feature list and optional unix_socket. -/
structure OptionsResp where
  status : Nat
  reason : String
  features : List String
  unix_socket : Option String
  deriving DecidableEq

/-- The capability-related handle fields computed by open's OPTIONS
handling. -/
structure NegotiateResult where
  can_flush : Bool
  can_trim : Bool
  can_zero : Bool
  needs_auth : Bool
  unix_socket : Option String
  deriving DecidableEq

/-- Environment for close: outcomes of the external calls it makes. -/
structure CloseEnv where
  flushResp : Response
  finalizeRes : Except String Unit
  polls : List PollResult
  deleteRes : Except String Unit

/-- Result of close (and of its try-block body): the normal return or the
escaping exception, the actions performed, and the artifact file content if
it was written. -/
structure CloseOut where
  res : Except PyErr Unit
  acts : List Action
  artifact : Option String

/-- Context message of pread's request_failed call (lines 354-356). -/
def preadMsg (offset count : Nat) : String :=
  "could not read sector offset " ++ toString offset ++ " size " ++ toString count

/-- Context message of pwrite's request_failed call (lines 383-385). -/
def pwriteMsg (offset count : Nat) : String :=
  "could not write sector offset " ++ toString offset ++ " size " ++ toString count

/-- Context message of zero's request_failed call (lines 412-414). -/
def zeroMsg (offset count : Nat) : String :=
  "could not zero sector offset " ++ toString offset ++ " size " ++ toString count

/-- Context message of emulate_zero's request_failed call (lines 446-448);
note the Python formats the loop variable count, which at that point has
been decremented to the size of the last chunk. -/
def zeroWriteMsg (offset count : Nat) : String :=
  "could not write zeroes offset " ++ toString offset ++ " size " ++ toString count

/-- Context message of trim's request_failed call (lines 468-470). -/
def trimMsg (offset count : Nat) : String :=
  "could not trim sector offset " ++ toString offset ++ " size " ++ toString count

/-- Context message of flush's request_failed call (line 487). -/
def flushMsg : String := "could not flush"

/-- Byte encoding of a string, used for the placeholder body text that
request_failed substitutes when r.read() raises EnvironmentError. -/
def strBytes (s : String) : List Nat :=
  s.toList.map Char.toNat

/-- The body value computed by request_failed's guarded r.read() (lines
322-325): the response body, or the placeholder string when reading raised
EnvironmentError. -/
def responseBody (r : Response) : List Nat :=
  match r.bodyExc with
  | none => r.body
  | some e => strBytes ("(Unable to read response body: " ++ e ++ ")")

/-- request_failed (lines 314-334): sets the failed flag, pauses the
transfer, logs the full error to the debug channel, and raises a
RuntimeError whose data combines the context message, status, reason, and
body[:200]. -/
def request_failed (h : Handle) (r : Response) (msg : String) : FailResult :=
  let body := responseBody r
  { h := { h with failed := true },
    acts := [Action.pause,
             Action.debugLog "unexpected response from imageio server:",
             Action.debugLog msg,
             Action.debugLog (toString r.status ++ ": " ++ r.reason),
             Action.debugBody body],
    info := { context := msg, status := r.status, reason := r.reason,
              bodyShort := body.take 200 } }

/-- pread (lines 341-358): a Range GET; 206 Partial Content is the single
expected status, anything else routes through request_failed. -/
def pread (h : Handle) (count offset : Nat) (r : Response) : OpResult (List Nat) :=
  let reqActs := [Action.getRange offset count h.needs_auth]
  if r.status = 206 then
    ⟨h, reqActs, Except.ok r.body⟩
  else
    let f := request_failed h r (preadMsg offset count)
    ⟨f.h, reqActs ++ f.acts, Except.error f.info⟩

/-- pwrite (lines 360-387): raises highestwrite to max(highestwrite,
offset+len(buf)) before issuing the PUT and before the response status is
examined; 200 is the single expected status. -/
def pwrite (h : Handle) (bufLen offset : Nat) (r : Response) : OpResult Unit :=
  let h2 : Handle := { h with highestwrite := max h.highestwrite (offset + bufLen) }
  let reqActs := [Action.put offset bufLen true h.needs_auth, Action.sendChunk bufLen]
  if r.status = 200 then
    ⟨h2, reqActs, Except.ok ()⟩
  else
    let f := request_failed h2 r (pwriteMsg offset bufLen)
    ⟨f.h, reqActs ++ f.acts, Except.error f.info⟩

/-- Loop body of emulate_zero's send loop (lines 436-440), with an explicit
fuel argument making the while loop structurally recursive; each iteration
removes 131072 from count, so any fuel at least count is enough. -/
def sendChunksAux (fuel count : Nat) : List Nat :=
  match fuel with
  | 0 => [count]
  | f + 1 =>
      if 131072 < count then
        131072 :: sendChunksAux f (count - 131072)
      else
        [count]

/-- Sizes of the successive http.send calls of emulate_zero's loop (lines
436-440): full 128 KiB (131072-byte) buffers while more than one buffer
remains, then one final send of the remainder. -/
def sendChunks (count : Nat) : List Nat :=
  sendChunksAux count count

/-- Fueled form of the loop-variable remainder, mirroring sendChunksAux. -/
def lastChunkAux (fuel count : Nat) : Nat :=
  match fuel with
  | 0 => count
  | f + 1 =>
      if 131072 < count then
        lastChunkAux f (count - 131072)
      else
        count

/-- The value of emulate_zero's loop variable count after its send loop:
the size of the last chunk (used in the request_failed context message). -/
def lastChunk (count : Nat) : Nat :=
  lastChunkAux count count

/-- emulate_zero (lines 418-450): if offset+count < highestwrite, emit a
plain PUT with Content-Range bytes offset..offset+count-1 and Content-Length
count, send the body as zero-filled chunks of at most 128 KiB, and check for
status 200; otherwise do nothing at all. -/
def emulate_zero (h : Handle) (count offset : Nat) (r : Response) : OpResult Unit :=
  if offset + count < h.highestwrite then
    let reqActs :=
      Action.put offset count false h.needs_auth ::
        (sendChunks count).map Action.sendChunk
    if r.status = 200 then
      ⟨h, reqActs, Except.ok ()⟩
    else
      let f := request_failed h r (zeroWriteMsg offset (lastChunk count))
      ⟨f.h, reqActs ++ f.acts, Except.error f.info⟩
  else
    ⟨h, [], Except.ok ()⟩

/-- zero (lines 389-416): when can_zero is false, delegate everything to
emulate_zero; otherwise send the native PATCH zero op and expect 200.  The
may_trim argument is ignored by the code. -/
def zero (h : Handle) (count offset : Nat) (mayTrim : Bool) (r : Response) : OpResult Unit :=
  if h.can_zero = false then
    emulate_zero h count offset r
  else
    if r.status = 200 then
      ⟨h, [Action.patchZero offset count], Except.ok ()⟩
    else
      let f := request_failed h r (zeroMsg offset count)
      ⟨f.h, Action.patchZero offset count :: f.acts, Except.error f.info⟩

/-- trim (lines 452-472): the native PATCH trim op, expecting 200. -/
def trim (h : Handle) (count offset : Nat) (r : Response) : OpResult Unit :=
  if r.status = 200 then
    ⟨h, [Action.patchTrim offset count], Except.ok ()⟩
  else
    let f := request_failed h r (trimMsg offset count)
    ⟨f.h, Action.patchTrim offset count :: f.acts, Except.error f.info⟩

/-- flush (lines 474-489): unconditionally sends the PATCH flush op (the
function itself contains no can_flush check), expecting 200. -/
def flush (h : Handle) (r : Response) : OpResult Unit :=
  if r.status = 200 then
    ⟨h, [Action.patchFlush], Except.ok ()⟩
  else
    let f := request_failed h r flushMsg
    ⟨f.h, Action.patchFlush :: f.acts, Except.error f.info⟩

/-- can_trim callback (lines 301-302). -/
def can_trim (h : Handle) : Bool := h.can_trim

/-- can_flush callback (lines 304-305). -/
def can_flush (h : Handle) : Bool := h.can_flush

/-- delete_disk_on_failure (lines 491-493): looks up the disk service and
calls remove().  There is no try/except here, so any exception raised by
remove() propagates to the caller. -/
def delete_disk_on_failure (removeRes : Except String Unit) : Except String Unit :=
  match removeRes with
  | Except.ok _ => Except.ok ()
  | Except.error e => Except.error e

/-- The OPTIONS capability handling of open (lines 238-267), as a function
of the rhv_direct parameter and the probe response.  needs_auth starts as
not rhv_direct; a 200 response parses the feature list, forces needs_auth to
false and records unix_socket; 405 and 204 (old imageio) leave everything at
its initial value; any other status raises RuntimeError. -/
def negotiate_features (rhv_direct : Bool) (r : OptionsResp) :
    Except String NegotiateResult :=
  let needs_auth := !rhv_direct
  if r.status = 200 then
    Except.ok { can_flush := r.features.contains "flush",
                can_trim := r.features.contains "trim",
                can_zero := r.features.contains "zero",
                needs_auth := false,
                unix_socket := r.unix_socket }
  else if r.status = 405 ∨ r.status = 204 then
    Except.ok { can_flush := false, can_trim := false, can_zero := false,
                needs_auth := needs_auth, unix_socket := none }
  else
    Except.error ("could not use OPTIONS request: " ++ toString r.status
                  ++ ": " ++ r.reason)

/-- close's post-finalize polling loop (lines 531-544) over the successive
disk_service.get() results: a LOCKED (or any non-OK) status keeps polling,
OK ends the wait, sdk.NotFoundError aborts it, and exhausting the poll
sequence stands for exceeding the wall-clock timeout. -/
def waitLoop : List PollResult → List Action × WaitRes
  | [] => ([], WaitRes.timedOut)
  | PollResult.notFound :: _ => ([Action.pollDisk], WaitRes.notFound)
  | PollResult.found DiskStatus.ok :: _ => ([Action.pollDisk], WaitRes.finished)
  | PollResult.found _ :: rest =>
      let t := waitLoop rest
      (Action.pollDisk :: t.1, t.2)

/-- The flush-on-close step (lines 513-515): flush(h) is called only when
can_flush is true; its failure aborts the try block with the RuntimeError
from request_failed. -/
def flushStage (h : Handle) (env : CloseEnv) : CloseOut :=
  if h.can_flush = true then
    match flush h env.flushResp with
    | ⟨_, acts, Except.ok _⟩ => ⟨Except.ok (), acts, none⟩
    | ⟨_, acts, Except.error i⟩ => ⟨Except.error (PyErr.requestError i), acts, none⟩
  else
    ⟨Except.ok (), [], none⟩

/-- The finalize-and-wait step of close (lines 522-550): after
transfer_service.finalize(), poll the disk status; on OK write the disk-id
artifact file (fp.write(disk.id), no trailing newline); on
sdk.NotFoundError raise RuntimeError("transfer failed: disk ... not
found"); on timeout raise RuntimeError("timed out waiting for transfer to
finalize"); an exception from finalize() itself also aborts the block. -/
def finalizeStage (h : Handle) (env : CloseEnv) : CloseOut :=
  match env.finalizeRes with
  | Except.error e => ⟨Except.error (PyErr.sdkError e), [], none⟩
  | Except.ok _ =>
      match waitLoop env.polls with
      | (wacts, WaitRes.finished) =>
          ⟨Except.ok (), wacts ++ [Action.writeArtifact h.diskId], some h.diskId⟩
      | (wacts, WaitRes.notFound) =>
          ⟨Except.error (PyErr.runtimeError
              ("transfer failed: disk " ++ h.diskId ++ " not found")),
           wacts, none⟩
      | (wacts, WaitRes.timedOut) =>
          ⟨Except.error (PyErr.runtimeError
              "timed out waiting for transfer to finalize"),
           wacts, none⟩

/-- The try block of close's normal path (lines 511-550): flush if
can_flush, close the data-plane connection, finalize and wait, write the
artifact on success. -/
def closeBody (h : Handle) (env : CloseEnv) : CloseOut :=
  match flushStage h env with
  | ⟨Except.ok _, facts, _⟩ =>
      match finalizeStage h env with
      | ⟨res, gacts, art⟩ =>
          ⟨res, facts ++ [Action.httpClose, Action.finalizeReq] ++ gacts, art⟩
  | ⟨Except.error e, facts, _⟩ => ⟨Except.error e, facts, none⟩

/-- close (lines 495-557): if the handle is failed, delete the disk and
close the management connection and return; otherwise run the normal
sequence, and on any exception from it call delete_disk_on_failure before
re-raising (an exception raised by the delete itself replaces the original
one, as in Python). -/
def close (h : Handle) (env : CloseEnv) : CloseOut :=
  if h.failed = true then
    match delete_disk_on_failure env.deleteRes with
    | Except.ok _ => ⟨Except.ok (), [Action.deleteDisk, Action.connClose], none⟩
    | Except.error e => ⟨Except.error (PyErr.sdkError e), [Action.deleteDisk], none⟩
  else
    match closeBody h env with
    | ⟨Except.ok _, acts, art⟩ => ⟨Except.ok (), acts ++ [Action.connClose], art⟩
    | ⟨Except.error e, acts, _⟩ =>
        match delete_disk_on_failure env.deleteRes with
        | Except.ok _ => ⟨Except.error e, acts ++ [Action.deleteDisk], none⟩
        | Except.error e2 =>
            ⟨Except.error (PyErr.sdkError e2), acts ++ [Action.deleteDisk], none⟩

/-- A handle fresh from open against a legacy server: all capabilities
false, highestwrite 0, needs_auth true, not failed. -/
def hFresh : Handle :=
  { can_flush := false, can_trim := false, can_zero := false, failed := false,
    highestwrite := 0, needs_auth := true, diskId := "disk-1" }

/-- A 200 OK response with an empty body. -/
def r200 : Response :=
  { status := 200, reason := "OK", body := [], bodyExc := none }

/-- A 500 error response with a 300-byte body. -/
def r500 : Response :=
  { status := 500, reason := "Internal Server Error",
    body := List.replicate 300 7, bodyExc := none }

/-- The handle after the literal scenario's pwrite of 4096 bytes at offset
0: highestwrite is 4096. -/
def hScen : Handle := (pwrite hFresh 4096 0 r200).h

/-- hFresh with the failed flag set. -/
def hFailHandle : Handle := { hFresh with failed := true }

/-- hFresh with can_flush set. -/
def hFlushable : Handle := { hFresh with can_flush := true }

/-- Close environment whose first disk poll raises sdk.NotFoundError. -/
def envNF : CloseEnv :=
  { flushResp := r200, finalizeRes := Except.ok (),
    polls := [PollResult.notFound], deleteRes := Except.ok () }

/-- Close environment whose disk delete fails. -/
def envDel : CloseEnv :=
  { flushResp := r200, finalizeRes := Except.ok (), polls := [],
    deleteRes := Except.error "remove failed" }

/-- Close environment where everything succeeds: one LOCKED poll then OK. -/
def envOk : CloseEnv :=
  { flushResp := r200, finalizeRes := Except.ok (),
    polls := [PollResult.found DiskStatus.locked, PollResult.found DiskStatus.ok],
    deleteRes := Except.ok () }

/-- A legacy 405 OPTIONS response. -/
def oLegacy : OptionsResp :=
  { status := 405, reason := "Method Not Allowed", features := [],
    unix_socket := none }

theorem sendChunksAux_sum (fuel : Nat) :
    ∀ count, count ≤ fuel → (sendChunksAux fuel count).sum = count := by
  induction fuel with
  | zero =>
    intro count hc
    simp only [sendChunksAux, List.sum_cons, List.sum_nil]
    omega
  | succ f ih =>
    intro count hc
    simp only [sendChunksAux]
    split
    · rename_i hgt
      have hrec := ih (count - 131072) (by omega)
      simp only [List.sum_cons, hrec]
      omega
    · simp

theorem sendChunks_sum (count : Nat) : (sendChunks count).sum = count :=
  sendChunksAux_sum count count (Nat.le_refl count)

theorem sendChunksAux_le (fuel : Nat) :
    ∀ count, count ≤ fuel → ∀ c ∈ sendChunksAux fuel count, c ≤ 131072 := by
  induction fuel with
  | zero =>
    intro count hc c hmem
    simp only [sendChunksAux, List.mem_singleton] at hmem
    omega
  | succ f ih =>
    intro count hc c hmem
    simp only [sendChunksAux] at hmem
    by_cases hgt : 131072 < count
    · rw [if_pos hgt] at hmem
      rcases List.mem_cons.mp hmem with hh | ht
      · omega
      · exact ih (count - 131072) (by omega) c ht
    · rw [if_neg hgt] at hmem
      simp only [List.mem_singleton] at hmem
      omega

theorem sendChunks_le (count : Nat) : ∀ c ∈ sendChunks count, c ≤ 131072 :=
  sendChunksAux_le count count (Nat.le_refl count)

/-- C2: with can_zero false, zero with offset+count at or above the
high-water mark performs nothing at all (no actions, handle unchanged,
normal return), while zero with offset+count below the high-water mark
issues one plain PUT addressing exactly bytes offset..offset+count-1
followed by zero-filled send chunks whose sizes total count, each at most
128 KiB. -/
theorem zero_boundary (h : Handle) (count offset : Nat) (mt : Bool) (r : Response)
    (hcz : h.can_zero = false) :
    (h.highestwrite ≤ offset + count →
      zero h count offset mt r = ⟨h, [], Except.ok ()⟩) ∧
    (offset + count < h.highestwrite → r.status = 200 →
      (zero h count offset mt r).acts =
        Action.put offset count false h.needs_auth ::
          (sendChunks count).map Action.sendChunk ∧
      (sendChunks count).sum = count ∧
      ∀ c ∈ sendChunks count, c ≤ 131072) := by
  constructor
  · intro hge
    unfold zero emulate_zero
    rw [hcz]
    simp [Nat.not_lt.mpr hge]
  · intro hlt hs
    unfold zero emulate_zero
    rw [hcz]
    simp only [if_pos rfl, if_pos hlt, if_pos hs]
    exact ⟨rfl, sendChunks_sum count, sendChunks_le count⟩

/-- Witness for zero_boundary: on the scenario handle (highestwrite 4096,
can_zero false), zero of 1,000,000 bytes at offset 0 is a pure no-op, and
zero of 1,000 bytes at offset 0 issues the emulated PUT plus chunks
totalling 1,000 bytes. -/
theorem zero_boundary_wit :
    hScen.can_zero = false ∧
    zero hScen 1000000 0 true r200 = ⟨hScen, [], Except.ok ()⟩ ∧
    (zero hScen 1000 0 true r200).acts =
      Action.put 0 1000 false true :: (sendChunks 1000).map Action.sendChunk ∧
    (sendChunks 1000).sum = 1000 := by
  refine ⟨rfl, ?_, ?_, ?_⟩
  · exact (zero_boundary hScen 1000000 0 true r200 rfl).1 (by decide)
  · exact ((zero_boundary hScen 1000 0 true r200 rfl).2 (by decide) rfl).1
  · exact ((zero_boundary hScen 1000 0 true r200 rfl).2 (by decide) rfl).2.1

/-- C3 counterexample: in the literal scenario (pwrite of 4096 bytes at
offset 0, then zero(1_000_000, 0, may_trim=true) with can_zero false) the
code takes the no-op branch, because 0+1_000_000 < 4096 is false; it issues
no write requests at all, not the 8 the claim demands. -/
theorem zero_scenario_ce :
    (zero hScen 1000000 0 true r200).acts = [] ∧
    (zero hScen 1000000 0 true r200).acts.length ≠ 8 := by
  constructor
  · rfl
  · intro hco
    simp [zero, emulate_zero, hScen, hFresh, pwrite, r200] at hco

/-- C3 amended: in the literal scenario the call zero(1_000_000, 0,
may_trim=true) takes the no-op branch of emulate_zero (since 1,000,000 is
not below the high-water mark of 4096): it issues no requests and leaves
the handle unchanged, the freshly created region being already zero. -/
theorem zero_scenario_noop :
    zero hScen 1000000 0 true r200 = ⟨hScen, [], Except.ok ()⟩ ∧
    hScen.highestwrite = 4096 := ⟨rfl, rfl⟩

/-- C5 counterexample: with rhv_direct true, a legacy 405 OPTIONS response
leaves needs_auth at its initial value (not rhv_direct) = false, not true
as the claim requires. -/
theorem negotiate_legacy_ce :
    negotiate_features true oLegacy =
      Except.ok { can_flush := false, can_trim := false, can_zero := false,
                  needs_auth := false, unix_socket := none } := rfl

/-- C5 amended: a legacy OPTIONS status (405 or 204) leaves all three
capability flags false and needs_auth at its initial value, the negation of
rhv_direct (so needs_auth is true exactly when rhv_direct is false); a 200
response takes each flag from membership of flush/trim/zero in the
advertised feature list and forces needs_auth false; any other status is a
fatal RuntimeError. -/
theorem negotiate_cases (d : Bool) (r : OptionsResp) :
    (r.status = 405 ∨ r.status = 204 →
      negotiate_features d r =
        Except.ok { can_flush := false, can_trim := false, can_zero := false,
                    needs_auth := !d, unix_socket := none }) ∧
    (r.status = 200 →
      negotiate_features d r =
        Except.ok { can_flush := r.features.contains "flush",
                    can_trim := r.features.contains "trim",
                    can_zero := r.features.contains "zero",
                    needs_auth := false, unix_socket := r.unix_socket }) ∧
    (r.status ≠ 200 → r.status ≠ 405 → r.status ≠ 204 →
      negotiate_features d r =
        Except.error ("could not use OPTIONS request: " ++ toString r.status
                      ++ ": " ++ r.reason)) := by
  refine ⟨?_, ?_, ?_⟩
  · intro hleg
    unfold negotiate_features
    have h200 : r.status ≠ 200 := by omega
    rw [if_neg h200, if_pos hleg]
  · intro h200
    unfold negotiate_features
    rw [if_pos h200]
  · intro h200 h405 h204
    unfold negotiate_features
    rw [if_neg h200, if_neg (by tauto)]

/-- Witness for negotiate_cases: with rhv_direct false, a legacy 405
response yields all-false capabilities and needs_auth true. -/
theorem negotiate_cases_wit :
    negotiate_features false oLegacy =
      Except.ok { can_flush := false, can_trim := false, can_zero := false,
                  needs_auth := true, unix_socket := none } :=
  (negotiate_cases false oLegacy).1 (Or.inl rfl)

/-- C9: request_failed sets the failed flag, pauses the transfer, writes the
full response body only to the debug channel, and the raised RuntimeError
carries the context message, HTTP status, reason phrase, and at most the
first 200 bytes of the body; every data-plane operation whose response has
an unexpected status (not 206 for pread, not 200 for the rest) yields
exactly that request_failed error. -/
theorem request_failed_spec (h : Handle) (r : Response) (msg : String)
    (count offset bufLen : Nat)
    (hs200 : r.status ≠ 200) (hs206 : r.status ≠ 206) :
    (request_failed h r msg).h.failed = true ∧
    Action.pause ∈ (request_failed h r msg).acts ∧
    (request_failed h r msg).info =
      { context := msg, status := r.status, reason := r.reason,
        bodyShort := (responseBody r).take 200 } ∧
    (request_failed h r msg).info.bodyShort.length ≤ 200 ∧
    Action.debugBody (responseBody r) ∈ (request_failed h r msg).acts ∧
    (pread h count offset r).res =
      Except.error (request_failed h r (preadMsg offset count)).info ∧
    (pread h count offset r).h.failed = true ∧
    (pwrite h bufLen offset r).res =
      Except.error (request_failed h r (pwriteMsg offset bufLen)).info ∧
    (trim h count offset r).res =
      Except.error (request_failed h r (trimMsg offset count)).info ∧
    (flush h r).res =
      Except.error (request_failed h r flushMsg).info ∧
    (h.can_zero = true →
      (zero h count offset false r).res =
        Except.error (request_failed h r (zeroMsg offset count)).info) ∧
    (offset + count < h.highestwrite →
      (emulate_zero h count offset r).res =
        Except.error (request_failed h r (zeroWriteMsg offset (lastChunk count))).info) := by
  refine ⟨rfl, ?_, rfl, ?_, ?_, ?_, ?_, ?_, ?_, ?_, ?_, ?_⟩
  · simp [request_failed]
  · simp only [request_failed, List.length_take]
    omega
  · simp [request_failed]
  · simp [pread, if_neg hs206]
  · simp [pread, if_neg hs206, request_failed]
  · simp [pwrite, if_neg hs200, request_failed]
  · simp [trim, if_neg hs200]
  · simp [flush, if_neg hs200]
  · intro hcz
    simp [zero, hcz, if_neg hs200]
  · intro hlt
    simp [emulate_zero, if_pos hlt, if_neg hs200]

/-- Witness for request_failed_spec at a concrete 500 response. -/
theorem request_failed_spec_wit :
    r500.status ≠ 200 ∧ r500.status ≠ 206 ∧
    (request_failed hFresh r500 "m").h.failed = true ∧
    (pread hFresh 512 0 r500).res =
      Except.error (request_failed hFresh r500 (preadMsg 0 512)).info := by
  have hall := request_failed_spec hFresh r500 "m" 512 0 512 (by decide) (by decide)
  exact ⟨by decide, by decide, hall.1, hall.2.2.2.2.2.1⟩

theorem waitLoop_mem (ps : List PollResult) :
    ∀ a ∈ (waitLoop ps).1, a = Action.pollDisk := by
  induction ps with
  | nil => simp [waitLoop]
  | cons p rest ih =>
    cases p with
    | notFound => simp [waitLoop]
    | found s =>
      cases s with
      | ok => simp [waitLoop]
      | locked =>
        intro a ha
        simp only [waitLoop] at ha
        rcases List.mem_cons.mp ha with hh | ht
        · exact hh
        · exact ih a ht
      | illegal =>
        intro a ha
        simp only [waitLoop] at ha
        rcases List.mem_cons.mp ha with hh | ht
        · exact hh
        · exact ih a ht

theorem flush_acts_cases (h : Handle) (r : Response) :
    (flush h r).acts = [Action.patchFlush] ∨
      (flush h r).acts = Action.patchFlush :: (request_failed h r flushMsg).acts := by
  unfold flush
  split
  · left
    rfl
  · right
    rfl

theorem flush_no_art (h : Handle) (r : Response) (s : String) :
    Action.writeArtifact s ∉ (flush h r).acts := by
  rcases flush_acts_cases h r with he | he <;> simp [he, request_failed]

theorem flushStage_ok_case (h : Handle) (env : CloseEnv)
    (hok : h.can_flush = true → env.flushResp.status = 200) :
    flushStage h env =
      ⟨Except.ok (), if h.can_flush = true then [Action.patchFlush] else [],
       none⟩ := by
  by_cases hc : h.can_flush = true
  · simp [flushStage, flush, hc, hok hc]
  · simp [flushStage, hc]

theorem flushStage_err_case (h : Handle) (env : CloseEnv)
    (hc : h.can_flush = true) (hs : env.flushResp.status ≠ 200) :
    flushStage h env =
      ⟨Except.error (PyErr.requestError
          (request_failed h env.flushResp flushMsg).info),
       Action.patchFlush :: (request_failed h env.flushResp flushMsg).acts,
       none⟩ := by
  simp [flushStage, flush, hc, hs]

theorem finalizeStage_err (h : Handle) (env : CloseEnv) (e : String)
    (hf : env.finalizeRes = Except.error e) :
    finalizeStage h env = ⟨Except.error (PyErr.sdkError e), [], none⟩ := by
  simp [finalizeStage, hf]

theorem finalizeStage_finished (h : Handle) (env : CloseEnv)
    (hf : env.finalizeRes = Except.ok ())
    (hw : (waitLoop env.polls).2 = WaitRes.finished) :
    finalizeStage h env =
      ⟨Except.ok (), (waitLoop env.polls).1 ++ [Action.writeArtifact h.diskId],
       some h.diskId⟩ := by
  rcases hwl : waitLoop env.polls with ⟨wacts, wres⟩
  rw [hwl] at hw
  simp only at hw
  subst hw
  simp [finalizeStage, hf, hwl]

theorem finalizeStage_notFound (h : Handle) (env : CloseEnv)
    (hf : env.finalizeRes = Except.ok ())
    (hw : (waitLoop env.polls).2 = WaitRes.notFound) :
    finalizeStage h env =
      ⟨Except.error (PyErr.runtimeError
          ("transfer failed: disk " ++ h.diskId ++ " not found")),
       (waitLoop env.polls).1, none⟩ := by
  rcases hwl : waitLoop env.polls with ⟨wacts, wres⟩
  rw [hwl] at hw
  simp only at hw
  subst hw
  simp [finalizeStage, hf, hwl]

theorem finalizeStage_timedOut (h : Handle) (env : CloseEnv)
    (hf : env.finalizeRes = Except.ok ())
    (hw : (waitLoop env.polls).2 = WaitRes.timedOut) :
    finalizeStage h env =
      ⟨Except.error (PyErr.runtimeError
          "timed out waiting for transfer to finalize"),
       (waitLoop env.polls).1, none⟩ := by
  rcases hwl : waitLoop env.polls with ⟨wacts, wres⟩
  rw [hwl] at hw
  simp only at hw
  subst hw
  simp [finalizeStage, hf, hwl]

theorem finalizeStage_mem (h : Handle) (env : CloseEnv) :
    ∀ a ∈ (finalizeStage h env).acts,
      a = Action.pollDisk ∨ a = Action.writeArtifact h.diskId := by
  cases hf : env.finalizeRes with
  | error e =>
    rw [finalizeStage_err h env e hf]
    simp
  | ok u =>
    cases u
    rcases hwl : waitLoop env.polls with ⟨wacts, wres⟩
    have hmem := waitLoop_mem env.polls
    rw [hwl] at hmem
    cases wres with
    | finished =>
      rw [finalizeStage_finished h env hf (by rw [hwl])]
      intro a ha
      rw [hwl] at ha
      simp only [List.mem_append, List.mem_singleton] at ha
      rcases ha with ha | ha
      · exact Or.inl (hmem a ha)
      · exact Or.inr ha
    | notFound =>
      rw [finalizeStage_notFound h env hf (by rw [hwl])]
      intro a ha
      rw [hwl] at ha
      exact Or.inl (hmem a ha)
    | timedOut =>
      rw [finalizeStage_timedOut h env hf (by rw [hwl])]
      intro a ha
      rw [hwl] at ha
      exact Or.inl (hmem a ha)

theorem finalizeStage_err_no_art (h : Handle) (env : CloseEnv) (e0 : PyErr)
    (he : (finalizeStage h env).res = Except.error e0) :
    ∀ s, Action.writeArtifact s ∉ (finalizeStage h env).acts := by
  intro s hmem
  cases hf : env.finalizeRes with
  | error e =>
    rw [finalizeStage_err h env e hf] at hmem
    simp at hmem
  | ok u =>
    cases u
    rcases hwl : waitLoop env.polls with ⟨wacts, wres⟩
    have hmemw := waitLoop_mem env.polls
    rw [hwl] at hmemw
    cases wres with
    | finished =>
      rw [finalizeStage_finished h env hf (by rw [hwl])] at he
      simp at he
    | notFound =>
      rw [finalizeStage_notFound h env hf (by rw [hwl])] at hmem
      rw [hwl] at hmem
      have := hmemw _ hmem
      simp at this
    | timedOut =>
      rw [finalizeStage_timedOut h env hf (by rw [hwl])] at hmem
      rw [hwl] at hmem
      have := hmemw _ hmem
      simp at this

theorem closeBody_flush_ok (h : Handle) (env : CloseEnv)
    (hok : h.can_flush = true → env.flushResp.status = 200) :
    closeBody h env =
      ⟨(finalizeStage h env).res,
       (if h.can_flush = true then [Action.patchFlush] else []) ++
         [Action.httpClose, Action.finalizeReq] ++ (finalizeStage h env).acts,
       (finalizeStage h env).artifact⟩ := by
  unfold closeBody
  rw [flushStage_ok_case h env hok]

theorem closeBody_flush_err (h : Handle) (env : CloseEnv)
    (hc : h.can_flush = true) (hs : env.flushResp.status ≠ 200) :
    closeBody h env =
      ⟨Except.error (PyErr.requestError
          (request_failed h env.flushResp flushMsg).info),
       Action.patchFlush :: (request_failed h env.flushResp flushMsg).acts,
       none⟩ := by
  unfold closeBody
  rw [flushStage_err_case h env hc hs]

theorem closeBody_flush_mem (h : Handle) (env : CloseEnv)
    (hc : h.can_flush = true) :
    Action.patchFlush ∈ (closeBody h env).acts := by
  by_cases hs : env.flushResp.status = 200
  · rw [closeBody_flush_ok h env (fun _ => hs)]
    simp [hc]
  · rw [closeBody_flush_err h env hc hs]
    simp

theorem closeBody_no_flush (h : Handle) (env : CloseEnv)
    (hc : h.can_flush = false) :
    Action.patchFlush ∉ (closeBody h env).acts := by
  have hcn : ¬(h.can_flush = true) := by simp [hc]
  have hok : h.can_flush = true → env.flushResp.status = 200 := by
    intro hcc
    exact absurd hcc hcn
  have hacts : (closeBody h env).acts =
      (if h.can_flush = true then [Action.patchFlush] else []) ++
        [Action.httpClose, Action.finalizeReq] ++ (finalizeStage h env).acts := by
    rw [closeBody_flush_ok h env hok]
  rw [hacts, if_neg hcn]
  intro hmem
  rcases List.mem_append.mp hmem with hmem | hmem
  · simp at hmem
  · rcases finalizeStage_mem h env _ hmem with hx | hx <;> simp at hx

theorem closeBody_ok_shape (h : Handle) (env : CloseEnv)
    (hb : (closeBody h env).res = Except.ok ()) :
    (waitLoop env.polls).2 = WaitRes.finished ∧
    (closeBody h env).artifact = some h.diskId ∧
    (closeBody h env).acts =
      (if h.can_flush = true then [Action.patchFlush] else []) ++
        [Action.httpClose, Action.finalizeReq] ++ (waitLoop env.polls).1 ++
        [Action.writeArtifact h.diskId] := by
  have hok : h.can_flush = true → env.flushResp.status = 200 := by
    intro hc
    by_contra hs
    rw [closeBody_flush_err h env hc hs] at hb
    simp at hb
  rw [closeBody_flush_ok h env hok] at hb ⊢
  simp only at hb
  cases hf : env.finalizeRes with
  | error e =>
    rw [finalizeStage_err h env e hf] at hb
    simp at hb
  | ok u =>
    cases u
    rcases hwl : waitLoop env.polls with ⟨wacts, wres⟩
    cases wres with
    | finished =>
      rw [finalizeStage_finished h env hf (by rw [hwl])]
      rw [hwl]
      simp [List.append_assoc]
    | notFound =>
      rw [finalizeStage_notFound h env hf (by rw [hwl])] at hb
      simp at hb
    | timedOut =>
      rw [finalizeStage_timedOut h env hf (by rw [hwl])] at hb
      simp at hb

theorem closeBody_err_no_art (h : Handle) (env : CloseEnv) (e0 : PyErr)
    (he : (closeBody h env).res = Except.error e0) :
    ∀ s, Action.writeArtifact s ∉ (closeBody h env).acts := by
  intro s
  by_cases hc : h.can_flush = true
  · by_cases hs : env.flushResp.status = 200
    · have hres : (closeBody h env).res = (finalizeStage h env).res := by
        rw [closeBody_flush_ok h env (fun _ => hs)]
      have hfe : (finalizeStage h env).res = Except.error e0 := by
        rw [← hres]
        exact he
      have hacts : (closeBody h env).acts =
          (if h.can_flush = true then [Action.patchFlush] else []) ++
            [Action.httpClose, Action.finalizeReq] ++ (finalizeStage h env).acts := by
        rw [closeBody_flush_ok h env (fun _ => hs)]
      rw [hacts, if_pos hc]
      intro hmem
      rcases List.mem_append.mp hmem with hmem | hmem
      · simp at hmem
      · exact finalizeStage_err_no_art h env e0 hfe s hmem
    · have hacts : (closeBody h env).acts =
          Action.patchFlush :: (request_failed h env.flushResp flushMsg).acts := by
        rw [closeBody_flush_err h env hc hs]
      rw [hacts]
      simp [request_failed]
  · have hok : h.can_flush = true → env.flushResp.status = 200 := by
      intro hcc
      exact absurd hcc hc
    have hres : (closeBody h env).res = (finalizeStage h env).res := by
      rw [closeBody_flush_ok h env hok]
    have hfe : (finalizeStage h env).res = Except.error e0 := by
      rw [← hres]
      exact he
    have hacts : (closeBody h env).acts =
        (if h.can_flush = true then [Action.patchFlush] else []) ++
          [Action.httpClose, Action.finalizeReq] ++ (finalizeStage h env).acts := by
      rw [closeBody_flush_ok h env hok]
    rw [hacts, if_neg hc]
    intro hmem
    rcases List.mem_append.mp hmem with hmem | hmem
    · simp at hmem
    · exact finalizeStage_err_no_art h env e0 hfe s hmem

theorem close_failed_del_ok (h : Handle) (env : CloseEnv)
    (hfl : h.failed = true) (hdel : env.deleteRes = Except.ok ()) :
    close h env = ⟨Except.ok (), [Action.deleteDisk, Action.connClose], none⟩ := by
  simp [close, hfl, delete_disk_on_failure, hdel]

theorem close_failed_del_err (h : Handle) (env : CloseEnv) (e : String)
    (hfl : h.failed = true) (hdel : env.deleteRes = Except.error e) :
    close h env = ⟨Except.error (PyErr.sdkError e), [Action.deleteDisk], none⟩ := by
  simp [close, hfl, delete_disk_on_failure, hdel]

theorem close_body_ok (h : Handle) (env : CloseEnv)
    (hfl : h.failed = false) (hok : (closeBody h env).res = Except.ok ()) :
    close h env = ⟨Except.ok (), (closeBody h env).acts ++ [Action.connClose],
                   (closeBody h env).artifact⟩ := by
  rcases hcb : closeBody h env with ⟨res, acts, art⟩
  rw [hcb] at hok
  simp only at hok
  cases res with
  | ok u =>
    cases u
    simp [close, hfl, hcb]
  | error e =>
    simp at hok

theorem close_body_err (h : Handle) (env : CloseEnv) (e : PyErr)
    (hfl : h.failed = false) (he : (closeBody h env).res = Except.error e)
    (hdel : env.deleteRes = Except.ok ()) :
    close h env = ⟨Except.error e,
                   (closeBody h env).acts ++ [Action.deleteDisk], none⟩ := by
  rcases hcb : closeBody h env with ⟨res, acts, art⟩
  rw [hcb] at he
  simp only at he
  cases res with
  | ok u => simp at he
  | error e2 =>
    simp only [Except.error.injEq] at he
    subst he
    simp [close, hfl, hcb, delete_disk_on_failure, hdel]

theorem close_body_err_del (h : Handle) (env : CloseEnv) (e : PyErr) (e2 : String)
    (hfl : h.failed = false) (he : (closeBody h env).res = Except.error e)
    (hdel : env.deleteRes = Except.error e2) :
    close h env = ⟨Except.error (PyErr.sdkError e2),
                   (closeBody h env).acts ++ [Action.deleteDisk], none⟩ := by
  rcases hcb : closeBody h env with ⟨res, acts, art⟩
  rw [hcb] at he
  simp only at he
  cases res with
  | ok u => simp at he
  | error e3 =>
    simp only [Except.error.injEq] at he
    subst he
    simp [close, hfl, hcb, delete_disk_on_failure, hdel]

theorem close_body_err_shape (h : Handle) (env : CloseEnv) (e0 : PyErr)
    (hfl : h.failed = false) (he : (closeBody h env).res = Except.error e0) :
    (close h env).artifact = none ∧
    (close h env).acts = (closeBody h env).acts ++ [Action.deleteDisk] ∧
    ∃ e1, (close h env).res = Except.error e1 := by
  cases hdel : env.deleteRes with
  | ok u =>
    cases u
    rw [close_body_err h env e0 hfl he hdel]
    exact ⟨rfl, rfl, e0, rfl⟩
  | error e2 =>
    rw [close_body_err_del h env e0 e2 hfl he hdel]
    exact ⟨rfl, rfl, PyErr.sdkError e2, rfl⟩

/-- C1 counterexample: on a non-failed handle whose first post-finalize
disk poll raises sdk.NotFoundError, close raises
RuntimeError("transfer failed: disk ... not found") and runs cleanup; it
does not continue to the success path, and no disk-id artifact is
written. -/
theorem close_notFound_raises_ce :
    close hFresh envNF =
      ⟨Except.error (PyErr.runtimeError
          ("transfer failed: disk " ++ hFresh.diskId ++ " not found")),
       [Action.httpClose, Action.finalizeReq, Action.pollDisk,
        Action.deleteDisk],
       none⟩ := rfl

/-- C1 amended: a NotFoundError raised while polling the disk status after
finalize is treated as a transfer failure, not as success: close raises
RuntimeError("transfer failed: disk ... not found"), writes no artifact,
and the cleanup delete runs before the exception propagates. -/
theorem close_notFound_is_failure (h : Handle) (env : CloseEnv)
    (hfl : h.failed = false)
    (hok : h.can_flush = true → env.flushResp.status = 200)
    (hfin : env.finalizeRes = Except.ok ())
    (hw : (waitLoop env.polls).2 = WaitRes.notFound)
    (hdel : env.deleteRes = Except.ok ()) :
    (close h env).res = Except.error (PyErr.runtimeError
      ("transfer failed: disk " ++ h.diskId ++ " not found")) ∧
    (close h env).artifact = none ∧
    Action.deleteDisk ∈ (close h env).acts := by
  have hres : (closeBody h env).res = Except.error (PyErr.runtimeError
      ("transfer failed: disk " ++ h.diskId ++ " not found")) := by
    rw [closeBody_flush_ok h env hok, finalizeStage_notFound h env hfin hw]
  rw [close_body_err h env _ hfl hres hdel]
  refine ⟨rfl, rfl, ?_⟩
  simp

/-- Witness for close_notFound_is_failure at the concrete environment whose
single poll raises NotFoundError. -/
theorem close_notFound_is_failure_wit :
    hFresh.failed = false ∧
    (close hFresh envNF).res = Except.error (PyErr.runtimeError
      ("transfer failed: disk " ++ hFresh.diskId ++ " not found")) ∧
    (close hFresh envNF).artifact = none := by
  have happ := close_notFound_is_failure hFresh envNF rfl (fun _ => rfl) rfl rfl rfl
  exact ⟨rfl, happ.1, happ.2.1⟩

/-- C4 counterexample: with the failed flag set and a disk delete that
raises, close propagates the delete's exception to its caller instead of
swallowing it (and never even reaches connection.close()). -/
theorem cleanup_raises_ce :
    close hFailHandle envDel =
      ⟨Except.error (PyErr.sdkError "remove failed"), [Action.deleteDisk],
       none⟩ ∧
    delete_disk_on_failure (Except.error "remove failed") =
      Except.error "remove failed" := ⟨rfl, rfl⟩

/-- C4 amended: delete_disk_on_failure contains no exception handling, so
an exception from the remote delete propagates out of the cleanup path into
close's caller; cleanup is not unconditionally non-throwing. -/
theorem cleanup_propagates (h : Handle) (env : CloseEnv) (e : String)
    (hfl : h.failed = true) (hdel : env.deleteRes = Except.error e) :
    delete_disk_on_failure env.deleteRes = Except.error e ∧
    close h env = ⟨Except.error (PyErr.sdkError e), [Action.deleteDisk],
                   none⟩ := by
  refine ⟨?_, close_failed_del_err h env e hfl hdel⟩
  rw [hdel]
  rfl

/-- Witness for cleanup_propagates at a concrete failing delete. -/
theorem cleanup_propagates_wit :
    hFailHandle.failed = true ∧
    (close hFailHandle envDel).res =
      Except.error (PyErr.sdkError "remove failed") := by
  refine ⟨rfl, ?_⟩
  rw [(cleanup_propagates hFailHandle envDel "remove failed" rfl rfl).2]

/-- C6 counterexample: the flush function itself contains no can_flush
check; called on a handle with can_flush false it still sends the PATCH
flush request over the channel. -/
theorem flush_unguarded_ce :
    hFresh.can_flush = false ∧
    flush hFresh r200 = ⟨hFresh, [Action.patchFlush], Except.ok ()⟩ :=
  ⟨rfl, rfl⟩

/-- C6 amended: flush itself always sends the PATCH flush op; the can_flush
guard lives in its caller close (line 514), so during close the flush verb
reaches the channel when the handle is non-failed and can_flush is true,
and never reaches it when can_flush is false or the handle is failed. -/
theorem close_flush_guarded (h : Handle) (env : CloseEnv) :
    (h.failed = false → h.can_flush = true →
      Action.patchFlush ∈ (close h env).acts) ∧
    (h.can_flush = false → Action.patchFlush ∉ (close h env).acts) ∧
    (h.failed = true → Action.patchFlush ∉ (close h env).acts) := by
  refine ⟨?_, ?_, ?_⟩
  · intro hfl hc
    have hmem := closeBody_flush_mem h env hc
    cases hb : (closeBody h env).res with
    | ok u =>
      cases u
      rw [close_body_ok h env hfl hb]
      simp only [List.mem_append]
      exact Or.inl hmem
    | error e0 =>
      rcases close_body_err_shape h env e0 hfl hb with ⟨_, hacts, _⟩
      rw [hacts]
      simp only [List.mem_append]
      exact Or.inl hmem
  · intro hc
    have hnb := closeBody_no_flush h env hc
    cases hfl : h.failed with
    | true =>
      cases hdel : env.deleteRes with
      | ok u =>
        cases u
        rw [close_failed_del_ok h env hfl hdel]
        simp
      | error e =>
        rw [close_failed_del_err h env e hfl hdel]
        simp
    | false =>
      cases hb : (closeBody h env).res with
      | ok u =>
        cases u
        rw [close_body_ok h env hfl hb]
        intro hmem
        rcases List.mem_append.mp hmem with hmem | hmem
        · exact hnb hmem
        · simp at hmem
      | error e0 =>
        rcases close_body_err_shape h env e0 hfl hb with ⟨_, hacts, _⟩
        rw [hacts]
        intro hmem
        rcases List.mem_append.mp hmem with hmem | hmem
        · exact hnb hmem
        · simp at hmem
  · intro hfl
    cases hdel : env.deleteRes with
    | ok u =>
      cases u
      rw [close_failed_del_ok h env hfl hdel]
      simp
    | error e =>
      rw [close_failed_del_err h env e hfl hdel]
      simp

/-- Witness for close_flush_guarded: on a flush-capable non-failed handle,
close's trace contains the PATCH flush request. -/
theorem close_flush_guarded_wit :
    hFlushable.can_flush = true ∧
    Action.patchFlush ∈ (close hFlushable envOk).acts :=
  ⟨rfl, (close_flush_guarded hFlushable envOk).1 rfl rfl⟩

/-- C7: on a handle whose failed flag is set, close performs only cleanup:
no flush request, no finalize call, no disk polling, no artifact write, and
when the best-effort delete returns normally close returns normally having
done exactly the delete and the management-connection close. -/
theorem close_failed_cleanup_only (h : Handle) (env : CloseEnv)
    (hfl : h.failed = true) :
    (close h env).artifact = none ∧
    Action.patchFlush ∉ (close h env).acts ∧
    Action.finalizeReq ∉ (close h env).acts ∧
    Action.pollDisk ∉ (close h env).acts ∧
    (∀ s, Action.writeArtifact s ∉ (close h env).acts) ∧
    (env.deleteRes = Except.ok () →
      (close h env).res = Except.ok () ∧
      (close h env).acts = [Action.deleteDisk, Action.connClose]) := by
  cases hdel : env.deleteRes with
  | ok u =>
    cases u
    rw [close_failed_del_ok h env hfl hdel]
    exact ⟨rfl, by simp, by simp, by simp, by simp, fun _ => ⟨rfl, rfl⟩⟩
  | error e =>
    rw [close_failed_del_err h env e hfl hdel]
    refine ⟨rfl, by simp, by simp, by simp, by simp, ?_⟩
    intro hco
    simp at hco

/-- Witness for close_failed_cleanup_only on a concrete failed handle. -/
theorem close_failed_cleanup_only_wit :
    hFailHandle.failed = true ∧
    (close hFailHandle envOk).artifact = none ∧
    (close hFailHandle envOk).acts = [Action.deleteDisk, Action.connClose] := by
  refine ⟨rfl, (close_failed_cleanup_only hFailHandle envOk rfl).1, ?_⟩
  exact ((close_failed_cleanup_only hFailHandle envOk rfl).2.2.2.2.2 rfl).2

/-- C8: on a non-failed handle, when close returns normally it has written
the artifact containing exactly the disk id (no trailing whitespace or
newline), the write happened only after the disk status was observed OK
following finalize, and the full trace is flush (when enabled), http close,
finalize, the polls, the artifact write, then the connection close; when
close raises, no artifact is written and the cleanup delete runs before the
exception propagates. -/
theorem close_success_artifact (h : Handle) (env : CloseEnv)
    (hfl : h.failed = false) :
    ((close h env).res = Except.ok () →
      (close h env).artifact = some h.diskId ∧
      (waitLoop env.polls).2 = WaitRes.finished ∧
      (close h env).acts =
        (if h.can_flush = true then [Action.patchFlush] else []) ++
          [Action.httpClose, Action.finalizeReq] ++ (waitLoop env.polls).1 ++
          [Action.writeArtifact h.diskId, Action.connClose]) ∧
    (∀ e, (close h env).res = Except.error e →
      (close h env).artifact = none ∧
      Action.deleteDisk ∈ (close h env).acts ∧
      ∀ s, Action.writeArtifact s ∉ (close h env).acts) := by
  constructor
  · intro hres
    cases hb : (closeBody h env).res with
    | ok u =>
      cases u
      rcases closeBody_ok_shape h env hb with ⟨hwres, hart, hacts⟩
      rw [close_body_ok h env hfl hb]
      refine ⟨hart, hwres, ?_⟩
      rw [hacts]
      simp [List.append_assoc]
    | error e0 =>
      rcases close_body_err_shape h env e0 hfl hb with ⟨_, _, e1, hre⟩
      rw [hre] at hres
      simp at hres
  · intro e hres
    cases hb : (closeBody h env).res with
    | ok u =>
      cases u
      rw [close_body_ok h env hfl hb] at hres
      simp at hres
    | error e0 =>
      rcases close_body_err_shape h env e0 hfl hb with ⟨hart, hacts, _⟩
      refine ⟨hart, ?_, ?_⟩
      · rw [hacts]
        simp
      · intro s
        rw [hacts]
        intro hmem
        rcases List.mem_append.mp hmem with hmem | hmem
        · exact closeBody_err_no_art h env e0 hb s hmem
        · simp at hmem

/-- Witness for close_success_artifact: a fully successful close writes
exactly the disk id. -/
theorem close_success_artifact_wit :
    hFlushable.failed = false ∧
    (close hFlushable envOk).res = Except.ok () ∧
    (close hFlushable envOk).artifact = some "disk-1" := by
  refine ⟨rfl, rfl, ?_⟩
  exact ((close_success_artifact hFlushable envOk rfl).1 rfl).1

/-- C10: highestwrite never decreases across any data-plane operation:
pwrite sets it to max(highestwrite, offset+len(buf)) before the response
status is examined (so the formula holds for every response, including
error responses), and no other operation changes it. -/
theorem highestwrite_monotone (h : Handle) (r : Response)
    (count offset bufLen : Nat) (mt : Bool) :
    (pwrite h bufLen offset r).h.highestwrite = max h.highestwrite (offset + bufLen) ∧
    h.highestwrite ≤ (pwrite h bufLen offset r).h.highestwrite ∧
    (pread h count offset r).h.highestwrite = h.highestwrite ∧
    (zero h count offset mt r).h.highestwrite = h.highestwrite ∧
    (trim h count offset r).h.highestwrite = h.highestwrite ∧
    (flush h r).h.highestwrite = h.highestwrite ∧
    (emulate_zero h count offset r).h.highestwrite = h.highestwrite := by
  refine ⟨?_, ?_, ?_, ?_, ?_, ?_, ?_⟩
  · unfold pwrite request_failed
    split <;> simp
  · unfold pwrite request_failed
    split <;> simp [Nat.le_max_left]
  · unfold pread request_failed
    split <;> simp
  · unfold zero emulate_zero request_failed
    repeat' split
    all_goals simp
  · unfold trim request_failed
    split <;> simp
  · unfold flush request_failed
    split <;> simp
  · unfold emulate_zero request_failed
    repeat' split
    all_goals simp

end RhvUpload
